import Mathlib

/-!
# Coherent HOPS vendor headers

A shallow embedding of the two C headers under
`src/voxel/devices/lasers/coherent/hops/dlls/`:

* `CohrFTCI2C.h` : the FTDI FT2232C I2C bridge (`FTC_*` status codes,
  buffer-size macros, the `I2C_*` prototypes);
* `CohrHOPS.h` : the Coherent HOPS laser / power-supply library
  (`COHRHOPS_*` error codes, `COHRHOPS_HANDLE`, `MAX_STRLEN`).

Every `#define NAME value` becomes `def NAME := value` under the same name.
`FTC_STATUS` is `ULONG`, so the `FTC_*` codes are naturals; the `CohrHOPS_*`
functions return `INT32`, so the `COHRHOPS_*` codes are integers.
-/

namespace Hops

/-! ## CohrFTCI2C.h, lines 73-110: the `FTC_*` status codes -/

def FTC_SUCCESS : Nat := 0
def FTC_INVALID_HANDLE : Nat := 1
def FTC_DEVICE_NOT_FOUND : Nat := 2
def FTC_DEVICE_NOT_OPENED : Nat := 3
def FTC_IO_ERROR : Nat := 4
def FTC_INSUFFICIENT_RESOURCES : Nat := 5
def FTC_FAILED_TO_COMPLETE_COMMAND : Nat := 20
def FTC_FAILED_TO_SYNCHRONIZE_DEVICE_MPSSE : Nat := 21
def FTC_INVALID_DEVICE_NAME_INDEX : Nat := 22
def FTC_NULL_DEVICE_NAME_BUFFER_POINTER : Nat := 23
def FTC_DEVICE_NAME_BUFFER_TOO_SMALL : Nat := 24
def FTC_INVALID_DEVICE_NAME : Nat := 25
def FTC_INVALID_LOCATION_ID : Nat := 26
def FTC_DEVICE_IN_USE : Nat := 27
def FTC_TOO_MANY_DEVICES : Nat := 28
def FTC_EXTERNAL_DEVICE_NOT_FOUND : Nat := 29
def FTC_INVALID_CLOCK_DIVISOR : Nat := 30
def FTC_NULL_CONTROL_DATA_BUFFER_POINTER : Nat := 31
def FTC_INVALID_NUMBER_CONTROL_BYTES : Nat := 32
def FTC_CONTROL_ACKNOWLEDGE_TIMEOUT : Nat := 33
def FTC_NULL_WRITE_DATA_BUFFER_POINTER : Nat := 34
def FTC_INVALID_NUMBER_DATA_BYTES_WRITE : Nat := 35
def FTC_DATA_ACKNOWLEDGE_TIMEOUT : Nat := 36
def FTC_INVALID_WRITE_TYPE : Nat := 37
def FTC_NUMBER_BYTES_TOO_SMALL_PAGE_WRITE : Nat := 38
def FTC_NULL_PAGE_WRITE_BUFFER_POINTER : Nat := 39
def FTC_NULL_READ_DATA_BUFFER_POINTER : Nat := 40
def FTC_INVALID_NUMBER_DATA_BYTES_READ : Nat := 41
def FTC_INVALID_READ_TYPE : Nat := 42
def FTC_INVALID_COMMS_MODE : Nat := 43
def FTC_NULL_DLL_VERSION_BUFFER_POINTER : Nat := 44
def FTC_DLL_VERSION_BUFFER_TOO_SMALL : Nat := 45
def FTC_NULL_LANGUAGE_CODE_BUFFER_POINTER : Nat := 46
def FTC_NULL_ERROR_MESSAGE_BUFFER_POINTER : Nat := 47
def FTC_ERROR_MESSAGE_BUFFER_TOO_SMALL : Nat := 48
def FTC_INVALID_LANGUAGE_CODE : Nat := 49
def FTC_INVALID_STATUS_CODE : Nat := 50

/-- The macro names of CohrFTCI2C.h lines 73-110, in source order. -/
inductive FtcName
  | FTC_SUCCESS
  | FTC_INVALID_HANDLE
  | FTC_DEVICE_NOT_FOUND
  | FTC_DEVICE_NOT_OPENED
  | FTC_IO_ERROR
  | FTC_INSUFFICIENT_RESOURCES
  | FTC_FAILED_TO_COMPLETE_COMMAND
  | FTC_FAILED_TO_SYNCHRONIZE_DEVICE_MPSSE
  | FTC_INVALID_DEVICE_NAME_INDEX
  | FTC_NULL_DEVICE_NAME_BUFFER_POINTER
  | FTC_DEVICE_NAME_BUFFER_TOO_SMALL
  | FTC_INVALID_DEVICE_NAME
  | FTC_INVALID_LOCATION_ID
  | FTC_DEVICE_IN_USE
  | FTC_TOO_MANY_DEVICES
  | FTC_EXTERNAL_DEVICE_NOT_FOUND
  | FTC_INVALID_CLOCK_DIVISOR
  | FTC_NULL_CONTROL_DATA_BUFFER_POINTER
  | FTC_INVALID_NUMBER_CONTROL_BYTES
  | FTC_CONTROL_ACKNOWLEDGE_TIMEOUT
  | FTC_NULL_WRITE_DATA_BUFFER_POINTER
  | FTC_INVALID_NUMBER_DATA_BYTES_WRITE
  | FTC_DATA_ACKNOWLEDGE_TIMEOUT
  | FTC_INVALID_WRITE_TYPE
  | FTC_NUMBER_BYTES_TOO_SMALL_PAGE_WRITE
  | FTC_NULL_PAGE_WRITE_BUFFER_POINTER
  | FTC_NULL_READ_DATA_BUFFER_POINTER
  | FTC_INVALID_NUMBER_DATA_BYTES_READ
  | FTC_INVALID_READ_TYPE
  | FTC_INVALID_COMMS_MODE
  | FTC_NULL_DLL_VERSION_BUFFER_POINTER
  | FTC_DLL_VERSION_BUFFER_TOO_SMALL
  | FTC_NULL_LANGUAGE_CODE_BUFFER_POINTER
  | FTC_NULL_ERROR_MESSAGE_BUFFER_POINTER
  | FTC_ERROR_MESSAGE_BUFFER_TOO_SMALL
  | FTC_INVALID_LANGUAGE_CODE
  | FTC_INVALID_STATUS_CODE
  deriving DecidableEq, Repr, Fintype

/-- What the preprocessor substitutes for each `FTC_*` name. -/
def ftcValue : FtcName → Nat
  | .FTC_SUCCESS => FTC_SUCCESS
  | .FTC_INVALID_HANDLE => FTC_INVALID_HANDLE
  | .FTC_DEVICE_NOT_FOUND => FTC_DEVICE_NOT_FOUND
  | .FTC_DEVICE_NOT_OPENED => FTC_DEVICE_NOT_OPENED
  | .FTC_IO_ERROR => FTC_IO_ERROR
  | .FTC_INSUFFICIENT_RESOURCES => FTC_INSUFFICIENT_RESOURCES
  | .FTC_FAILED_TO_COMPLETE_COMMAND => FTC_FAILED_TO_COMPLETE_COMMAND
  | .FTC_FAILED_TO_SYNCHRONIZE_DEVICE_MPSSE => FTC_FAILED_TO_SYNCHRONIZE_DEVICE_MPSSE
  | .FTC_INVALID_DEVICE_NAME_INDEX => FTC_INVALID_DEVICE_NAME_INDEX
  | .FTC_NULL_DEVICE_NAME_BUFFER_POINTER => FTC_NULL_DEVICE_NAME_BUFFER_POINTER
  | .FTC_DEVICE_NAME_BUFFER_TOO_SMALL => FTC_DEVICE_NAME_BUFFER_TOO_SMALL
  | .FTC_INVALID_DEVICE_NAME => FTC_INVALID_DEVICE_NAME
  | .FTC_INVALID_LOCATION_ID => FTC_INVALID_LOCATION_ID
  | .FTC_DEVICE_IN_USE => FTC_DEVICE_IN_USE
  | .FTC_TOO_MANY_DEVICES => FTC_TOO_MANY_DEVICES
  | .FTC_EXTERNAL_DEVICE_NOT_FOUND => FTC_EXTERNAL_DEVICE_NOT_FOUND
  | .FTC_INVALID_CLOCK_DIVISOR => FTC_INVALID_CLOCK_DIVISOR
  | .FTC_NULL_CONTROL_DATA_BUFFER_POINTER => FTC_NULL_CONTROL_DATA_BUFFER_POINTER
  | .FTC_INVALID_NUMBER_CONTROL_BYTES => FTC_INVALID_NUMBER_CONTROL_BYTES
  | .FTC_CONTROL_ACKNOWLEDGE_TIMEOUT => FTC_CONTROL_ACKNOWLEDGE_TIMEOUT
  | .FTC_NULL_WRITE_DATA_BUFFER_POINTER => FTC_NULL_WRITE_DATA_BUFFER_POINTER
  | .FTC_INVALID_NUMBER_DATA_BYTES_WRITE => FTC_INVALID_NUMBER_DATA_BYTES_WRITE
  | .FTC_DATA_ACKNOWLEDGE_TIMEOUT => FTC_DATA_ACKNOWLEDGE_TIMEOUT
  | .FTC_INVALID_WRITE_TYPE => FTC_INVALID_WRITE_TYPE
  | .FTC_NUMBER_BYTES_TOO_SMALL_PAGE_WRITE => FTC_NUMBER_BYTES_TOO_SMALL_PAGE_WRITE
  | .FTC_NULL_PAGE_WRITE_BUFFER_POINTER => FTC_NULL_PAGE_WRITE_BUFFER_POINTER
  | .FTC_NULL_READ_DATA_BUFFER_POINTER => FTC_NULL_READ_DATA_BUFFER_POINTER
  | .FTC_INVALID_NUMBER_DATA_BYTES_READ => FTC_INVALID_NUMBER_DATA_BYTES_READ
  | .FTC_INVALID_READ_TYPE => FTC_INVALID_READ_TYPE
  | .FTC_INVALID_COMMS_MODE => FTC_INVALID_COMMS_MODE
  | .FTC_NULL_DLL_VERSION_BUFFER_POINTER => FTC_NULL_DLL_VERSION_BUFFER_POINTER
  | .FTC_DLL_VERSION_BUFFER_TOO_SMALL => FTC_DLL_VERSION_BUFFER_TOO_SMALL
  | .FTC_NULL_LANGUAGE_CODE_BUFFER_POINTER => FTC_NULL_LANGUAGE_CODE_BUFFER_POINTER
  | .FTC_NULL_ERROR_MESSAGE_BUFFER_POINTER => FTC_NULL_ERROR_MESSAGE_BUFFER_POINTER
  | .FTC_ERROR_MESSAGE_BUFFER_TOO_SMALL => FTC_ERROR_MESSAGE_BUFFER_TOO_SMALL
  | .FTC_INVALID_LANGUAGE_CODE => FTC_INVALID_LANGUAGE_CODE
  | .FTC_INVALID_STATUS_CODE => FTC_INVALID_STATUS_CODE

/-! ## CohrHOPS.h, lines 46-60: the `COHRHOPS_*` error codes -/

def COHRHOPS_OK : Int := 0
def COHRHOPS_INVALID_HANDLE : Int := -1
def COHRHOPS_INVALID_HEAD : Int := -2
def COHRHOPS_INVALID_COMMAND : Int := -3
def COHRHOPS_INVALID_DATA : Int := -4
def COHRHOPS_I2C_ERROR : Int := -5
def COHRHOPS_USB_ERROR : Int := -6
def COHRHOPS_FTCI2C_DLL_FILE_NOT_FOUND : Int := -100
def COHRHOPS_FTCI2C_DLL_FUNCTION_NOT_FOUND : Int := -101
def COHRHOPS_FTCI2C_DLL_EXCEPTION : Int := -102
def COHRHOPS_NXP_ERROR : Int := -200
def COHRHOPS_RS232_ERROR : Int := -300
def COHRHOPS_THREAD_ERROR : Int := -400
def COHRHOPS_OTHER_ERROR : Int := -999

/-- The macro names of CohrHOPS.h lines 47-60, in source order. -/
inductive HopsName
  | COHRHOPS_OK
  | COHRHOPS_INVALID_HANDLE
  | COHRHOPS_INVALID_HEAD
  | COHRHOPS_INVALID_COMMAND
  | COHRHOPS_INVALID_DATA
  | COHRHOPS_I2C_ERROR
  | COHRHOPS_USB_ERROR
  | COHRHOPS_FTCI2C_DLL_FILE_NOT_FOUND
  | COHRHOPS_FTCI2C_DLL_FUNCTION_NOT_FOUND
  | COHRHOPS_FTCI2C_DLL_EXCEPTION
  | COHRHOPS_NXP_ERROR
  | COHRHOPS_RS232_ERROR
  | COHRHOPS_THREAD_ERROR
  | COHRHOPS_OTHER_ERROR
  deriving DecidableEq, Repr, Fintype

/-- What the preprocessor substitutes for each `COHRHOPS_*` name. -/
def hopsValue : HopsName → Int
  | .COHRHOPS_OK => COHRHOPS_OK
  | .COHRHOPS_INVALID_HANDLE => COHRHOPS_INVALID_HANDLE
  | .COHRHOPS_INVALID_HEAD => COHRHOPS_INVALID_HEAD
  | .COHRHOPS_INVALID_COMMAND => COHRHOPS_INVALID_COMMAND
  | .COHRHOPS_INVALID_DATA => COHRHOPS_INVALID_DATA
  | .COHRHOPS_I2C_ERROR => COHRHOPS_I2C_ERROR
  | .COHRHOPS_USB_ERROR => COHRHOPS_USB_ERROR
  | .COHRHOPS_FTCI2C_DLL_FILE_NOT_FOUND => COHRHOPS_FTCI2C_DLL_FILE_NOT_FOUND
  | .COHRHOPS_FTCI2C_DLL_FUNCTION_NOT_FOUND => COHRHOPS_FTCI2C_DLL_FUNCTION_NOT_FOUND
  | .COHRHOPS_FTCI2C_DLL_EXCEPTION => COHRHOPS_FTCI2C_DLL_EXCEPTION
  | .COHRHOPS_NXP_ERROR => COHRHOPS_NXP_ERROR
  | .COHRHOPS_RS232_ERROR => COHRHOPS_RS232_ERROR
  | .COHRHOPS_THREAD_ERROR => COHRHOPS_THREAD_ERROR
  | .COHRHOPS_OTHER_ERROR => COHRHOPS_OTHER_ERROR

/-! ## The FTDI D2XX status enumeration named in the comments of lines 73-78 -/

/-- Modelled from the spec: the FTDI D2XX `FT_STATUS` enumeration of ftd2xx.h,
which is not part of the repository. These are the six enumerators that the
comments of CohrFTCI2C.h lines 73-78 name, in the order D2XX declares them. -/
inductive FT_STATUS
  | FT_OK
  | FT_INVALID_HANDLE
  | FT_DEVICE_NOT_FOUND
  | FT_DEVICE_NOT_OPENED
  | FT_IO_ERROR
  | FT_INSUFFICIENT_RESOURCES
  deriving DecidableEq, Repr

/-- Modelled from the spec: the declaration order of the D2XX enumerators
(ftd2xx.h is not part of the repository), starting at `FT_OK`. -/
def FT_STATUS_enumerators : List FT_STATUS :=
  [.FT_OK, .FT_INVALID_HANDLE, .FT_DEVICE_NOT_FOUND, .FT_DEVICE_NOT_OPENED,
   .FT_IO_ERROR, .FT_INSUFFICIENT_RESOURCES]

/-- Modelled from the spec: a C enumeration without initialisers numbers its
enumerators consecutively from 0, so an enumerator's value is its position in
the declaration (ftd2xx.h is not part of the repository). -/
def ftValue (s : FT_STATUS) : Nat :=
  FT_STATUS_enumerators.indexOf s

/-- The D2XX name written in the comment that follows an `FTC_*` macro
(CohrFTCI2C.h lines 73-78); the other macros name none. -/
def ftcComment : FtcName → Option FT_STATUS
  | .FTC_SUCCESS => some .FT_OK
  | .FTC_INVALID_HANDLE => some .FT_INVALID_HANDLE
  | .FTC_DEVICE_NOT_FOUND => some .FT_DEVICE_NOT_FOUND
  | .FTC_DEVICE_NOT_OPENED => some .FT_DEVICE_NOT_OPENED
  | .FTC_IO_ERROR => some .FT_IO_ERROR
  | .FTC_INSUFFICIENT_RESOURCES => some .FT_INSUFFICIENT_RESOURCES
  | _ => none

/-! ## CohrHOPS.h, lines 16-39: `COHRHOPS_HANDLE` -/

/-- The two branches of the conditional at CohrHOPS.h lines 16 and 32:
`_MSC_VER` (Windows) and `__GNUC__` (Linux). -/
inductive Branch
  | Windows
  | Linux
  deriving DecidableEq, Repr

/-- The C types the two `typedef ... COHRHOPS_HANDLE;` lines name. -/
inductive CType
  | UINT_PTR
  | long
  deriving DecidableEq, Repr

/-- Lines 31 and 38: `typedef UINT_PTR COHRHOPS_HANDLE;` on Windows,
`typedef long COHRHOPS_HANDLE;  // 32-bit int` on Linux. -/
def COHRHOPS_HANDLE : Branch → CType
  | .Windows => .UINT_PTR
  | .Linux => .long

/-- The integer data models of the builds the header is written for. -/
inductive DataModel
  | ILP32
  | LLP64
  | LP64
  deriving DecidableEq, Repr

/-- Modelled from the spec: the width of `long` under each data model (the
compilers' ABI, not part of the repository): 32 bits under ILP32 and LLP64,
64 bits under LP64. -/
def longBits : DataModel → Nat
  | .ILP32 => 32
  | .LLP64 => 32
  | .LP64 => 64

/-- Modelled from the spec: the width of a pointer under each data model (the
compilers' ABI, not part of the repository): 32 bits under ILP32, 64 bits
under LLP64 and LP64. -/
def pointerBits : DataModel → Nat
  | .ILP32 => 32
  | .LLP64 => 64
  | .LP64 => 64

/-- Modelled from the spec: the width of a C type. `UINT_PTR` is declared by
windows.h (not part of the repository) as the unsigned integer as wide as a
pointer; `long` is the built-in type. -/
def typeBits (m : DataModel) : CType → Nat
  | .UINT_PTR => pointerBits m
  | .long => longBits m

/-- The builds the header is written for (revision history, lines 8-11:
Linux code, 64-bit DLL on Windows 10): Win32 (ILP32) and Win64 (LLP64) on the
Windows branch, 32-bit (ILP32) and 64-bit (LP64) Linux on the other. -/
def supportedBuild : Branch → DataModel → Bool
  | .Windows, .ILP32 => true
  | .Windows, .LLP64 => true
  | .Linux, .ILP32 => true
  | .Linux, .LP64 => true
  | _, _ => false

/-- Width in bits of a `COHRHOPS_HANDLE` in a build. -/
def handleBits (b : Branch) (m : DataModel) : Nat :=
  typeBits m (COHRHOPS_HANDLE b)

/-! ## CohrFTCI2C.h, lines 155-189: buffer sizes and byte counts -/

def MAX_WRITE_CONTROL_BYTES_BUFFER_SIZE : Nat := 256
def MAX_WRITE_DATA_BYTES_BUFFER_SIZE : Nat := 65536
def MAX_READ_DATA_BYTES_BUFFER_SIZE : Nat := 65536

/-- Modelled from the spec: the width of `DWORD`, which windows.h and
WinTypes.h declare (neither is part of the repository) as a 32-bit unsigned
integer. It is the type of the byte-count parameters
`dwNumControlBytesToWrite`, `dwNumDataBytesToWrite` and
`dwNumDataBytesToRead` of `I2C_Write`, `I2C_Read` and `I2C_ReadAlt`. -/
def DWORD_BITS : Nat := 32

/-- The value an unsigned integer of `bits` bits holds after `n` is stored
in it. -/
def storeUnsigned (bits n : Nat) : Nat :=
  n % 2 ^ bits

/-- A count `n` is representable in `bits` bits when storing it keeps it. -/
def representable (bits n : Nat) : Bool :=
  storeUnsigned bits n == n

/-- The unsigned 32-bit value with the same bit pattern as the `INT32` value
`c` (two's complement): `c` modulo `2 ^ 32`. -/
def asUnsigned32 (c : Int) : Nat :=
  (c % 2 ^ 32).toNat

/-! ## CohrHOPS.h, lines 67-68: the string length macro -/

/-- Line 68, under the comment of line 67, "All strings must be able to
contain 100 characters". The header declares no buffer of this size. -/
def MAX_STRLEN : Nat := 100

/-! ## Theorems -/

/-- C1: every status code declared by CohrHOPS.h is 0 for no error or a
negative value for an error. `COHRHOPS_OK` is 0, each of the 13 other
`COHRHOPS_*` codes is strictly less than 0, and a code is 0 if and only if it
is `COHRHOPS_OK`. -/
theorem cohrhops_code_zero_or_negative (c : HopsName) :
    COHRHOPS_OK = 0 ∧
    COHRHOPS_INVALID_HANDLE < 0 ∧
    COHRHOPS_INVALID_HEAD < 0 ∧
    COHRHOPS_INVALID_COMMAND < 0 ∧
    COHRHOPS_INVALID_DATA < 0 ∧
    COHRHOPS_I2C_ERROR < 0 ∧
    COHRHOPS_USB_ERROR < 0 ∧
    COHRHOPS_FTCI2C_DLL_FILE_NOT_FOUND < 0 ∧
    COHRHOPS_FTCI2C_DLL_FUNCTION_NOT_FOUND < 0 ∧
    COHRHOPS_FTCI2C_DLL_EXCEPTION < 0 ∧
    COHRHOPS_NXP_ERROR < 0 ∧
    COHRHOPS_RS232_ERROR < 0 ∧
    COHRHOPS_THREAD_ERROR < 0 ∧
    COHRHOPS_OTHER_ERROR < 0 ∧
    Fintype.card HopsName = 14 ∧
    (hopsValue c = 0 ∨ hopsValue c < 0) ∧
    (hopsValue c = 0 ↔ c = HopsName.COHRHOPS_OK) := by
  refine ⟨rfl, by decide, by decide, by decide, by decide, by decide, by decide,
    by decide, by decide, by decide, by decide, by decide, by decide, by decide,
    rfl, ?_, ?_⟩
  · cases c <;> decide
  · cases c <;> decide

/-- C2: within each header no two status-code names share a value. The 37
`FTC_*` codes are pairwise distinct, the 14 `COHRHOPS_*` codes are pairwise
distinct, and `FTC_SUCCESS` is the only `FTC_*` code equal to 0. -/
theorem status_codes_pairwise_distinct (a b : FtcName) (x y : HopsName) :
    Fintype.card FtcName = 37 ∧
    Fintype.card HopsName = 14 ∧
    (ftcValue a = ftcValue b ↔ a = b) ∧
    (hopsValue x = hopsValue y ↔ x = y) ∧
    (ftcValue a = 0 ↔ a = FtcName.FTC_SUCCESS) := by
  refine ⟨rfl, rfl, ?_, ?_, ?_⟩
  · cases a <;> cases b <;> decide
  · cases x <;> cases y <;> decide
  · cases a <;> decide

/-- C3: the six low `FTC_*` status codes equal the D2XX `FT_STATUS` values
named in their comments, the D2XX enumeration being numbered consecutively
from `FT_OK = 0`: 0, 1, 2, 3, 4 and 5. -/
theorem ftc_low_codes_match_d2xx (c : FtcName) :
    (FTC_SUCCESS = ftValue FT_STATUS.FT_OK ∧ FTC_SUCCESS = 0) ∧
    (FTC_INVALID_HANDLE = ftValue FT_STATUS.FT_INVALID_HANDLE ∧
      FTC_INVALID_HANDLE = 1) ∧
    (FTC_DEVICE_NOT_FOUND = ftValue FT_STATUS.FT_DEVICE_NOT_FOUND ∧
      FTC_DEVICE_NOT_FOUND = 2) ∧
    (FTC_DEVICE_NOT_OPENED = ftValue FT_STATUS.FT_DEVICE_NOT_OPENED ∧
      FTC_DEVICE_NOT_OPENED = 3) ∧
    (FTC_IO_ERROR = ftValue FT_STATUS.FT_IO_ERROR ∧ FTC_IO_ERROR = 4) ∧
    (FTC_INSUFFICIENT_RESOURCES = ftValue FT_STATUS.FT_INSUFFICIENT_RESOURCES ∧
      FTC_INSUFFICIENT_RESOURCES = 5) ∧
    (ftcComment c = none ∨ (ftcComment c).map ftValue = some (ftcValue c)) := by
  refine ⟨by decide, by decide, by decide, by decide, by decide, by decide, ?_⟩
  cases c <;> decide

/-- C4, as stated, fails: on a 64-bit Windows build (LLP64), which the
header supports, `COHRHOPS_HANDLE` is `UINT_PTR` and is 64 bits wide, so the
handle is not 32 bits wide on every supported build. -/
theorem cohrhops_handle_not_32_bits_on_win64 :
    supportedBuild Branch.Windows DataModel.LLP64 = true ∧
    COHRHOPS_HANDLE Branch.Windows = CType.UINT_PTR ∧
    handleBits Branch.Windows DataModel.LLP64 = 64 ∧
    ¬ (∀ b m, supportedBuild b m = true → handleBits b m = 32) := by
  refine ⟨rfl, rfl, rfl, ?_⟩
  intro h
  have h64 := h Branch.Windows DataModel.LLP64 rfl
  revert h64
  decide

/-- C4, amended: a `COHRHOPS_HANDLE` is 32 bits wide on the 32-bit builds of
both branches (`UINT_PTR` on Win32, `long` on 32-bit Linux); on the Windows
branch it is as wide as a pointer under every data model, hence 64 bits wide
on a 64-bit Windows build (LLP64). -/
theorem cohrhops_handle_width (b : Branch) (m : DataModel) :
    handleBits b DataModel.ILP32 = 32 ∧
    handleBits Branch.Windows m = pointerBits m ∧
    handleBits Branch.Windows DataModel.LLP64 = 64 := by
  refine ⟨?_, rfl, rfl⟩
  cases b <;> rfl

/-- On a 64-bit Linux build (LP64) the `long` of line 38, commented
`32-bit int`, is 64 bits wide. -/
theorem cohrhops_handle_linux_lp64 :
    supportedBuild Branch.Linux DataModel.LP64 = true ∧
    COHRHOPS_HANDLE Branch.Linux = CType.long ∧
    handleBits Branch.Linux DataModel.LP64 = 64 :=
  ⟨rfl, rfl, rfl⟩

/-- C5: the data buffers of `I2C_Write` and `I2C_Read` are both exactly 64k
bytes (64 * 1024 = 2^16 = 65536), the control buffer exactly 256 bytes (2^8);
every byte count `n` from 0 up to a full buffer is representable in the
32-bit `DWORD` count parameters, while a full data buffer's size is not
representable in 16 bits. -/
theorem buffer_sizes_fit_dword (n : Nat)
    (h : n ≤ MAX_WRITE_DATA_BYTES_BUFFER_SIZE) :
    MAX_WRITE_DATA_BYTES_BUFFER_SIZE = 64 * 1024 ∧
    MAX_WRITE_DATA_BYTES_BUFFER_SIZE = 2 ^ 16 ∧
    MAX_READ_DATA_BYTES_BUFFER_SIZE = 64 * 1024 ∧
    MAX_READ_DATA_BYTES_BUFFER_SIZE = MAX_WRITE_DATA_BYTES_BUFFER_SIZE ∧
    MAX_WRITE_CONTROL_BYTES_BUFFER_SIZE = 256 ∧
    MAX_WRITE_CONTROL_BYTES_BUFFER_SIZE = 2 ^ 8 ∧
    MAX_WRITE_CONTROL_BYTES_BUFFER_SIZE ≤ MAX_WRITE_DATA_BYTES_BUFFER_SIZE ∧
    MAX_WRITE_DATA_BYTES_BUFFER_SIZE < 2 ^ DWORD_BITS ∧
    representable DWORD_BITS n = true ∧
    storeUnsigned DWORD_BITS n = n ∧
    representable 16 MAX_WRITE_DATA_BYTES_BUFFER_SIZE = false ∧
    representable 16 MAX_READ_DATA_BYTES_BUFFER_SIZE = false ∧
    storeUnsigned 16 MAX_WRITE_DATA_BYTES_BUFFER_SIZE = 0 := by
  have hn : n < 2 ^ 32 := by
    have : MAX_WRITE_DATA_BYTES_BUFFER_SIZE = 65536 := rfl
    omega
  have hs : storeUnsigned DWORD_BITS n = n := Nat.mod_eq_of_lt hn
  refine ⟨by decide, by decide, by decide, rfl, rfl, by decide, by decide,
    by decide, ?_, hs, by decide, by decide, by decide⟩
  simp [representable, hs]

/-- C5 at a full data buffer: the count 65536 is stored unchanged in a
`DWORD`. -/
theorem buffer_sizes_fit_dword_witness :
    (65536 : Nat) ≤ MAX_WRITE_DATA_BYTES_BUFFER_SIZE ∧
    storeUnsigned DWORD_BITS 65536 = 65536 :=
  ⟨by decide, (buffer_sizes_fit_dword 65536 (by decide)).2.2.2.2.2.2.2.2.2.1⟩

/-- C7: the two status-code tables never collide on a failure. The only value
that is both an `FTC_*` code and a `COHRHOPS_*` code is 0, success in both;
every `FTC_*` failure code is strictly positive (within 1..50), every
`COHRHOPS_*` failure code strictly negative, and no `COHRHOPS_*` failure code
reinterpreted as an unsigned 32-bit value lies in the range 1..50 or equals
an `FTC_*` code. -/
theorem status_tables_collide_only_on_success (f : FtcName) (c : HopsName) :
    ((FTC_SUCCESS : Int) = COHRHOPS_OK ∧ COHRHOPS_OK = 0) ∧
    ((ftcValue f : Int) = hopsValue c ↔
      f = FtcName.FTC_SUCCESS ∧ c = HopsName.COHRHOPS_OK) ∧
    (f = FtcName.FTC_SUCCESS ∨ (1 ≤ ftcValue f ∧ ftcValue f ≤ 50)) ∧
    (c = HopsName.COHRHOPS_OK ∨ hopsValue c < 0) ∧
    (c = HopsName.COHRHOPS_OK ∨
      ¬ (1 ≤ asUnsigned32 (hopsValue c) ∧ asUnsigned32 (hopsValue c) ≤ 50)) ∧
    (ftcValue f = asUnsigned32 (hopsValue c) ↔
      f = FtcName.FTC_SUCCESS ∧ c = HopsName.COHRHOPS_OK) := by
  refine ⟨by decide, ?_, ?_, ?_, ?_, ?_⟩
  · cases f <;> cases c <;> decide
  · cases f <;> decide
  · cases c <;> decide
  · cases c <;> decide
  · cases f <;> cases c <;> decide

end Hops
